import Mathlib

/-!
Shallow embedding of the traffic-study app (`src/appy.py`).

The persisted CSV file is modelled as `Option (List TrafficRecord)`:
`none` means the file does not exist on disk, `some rs` means the file
exists and holds the record sequence `rs`.  Timestamps are modelled as
natural numbers (seconds); `hour` of a timestamp is `t / 3600 % 24` and
the calendar date is `t / 86400`, mirroring `datetime` semantics.

A `TrafficRecord` carries the five base CSV columns (Date, Time, Cars,
Bicycles, Pedestrians) plus the two derived columns Total and Hour that
`analyze_data` writes in place; the derived columns are `Option Nat`,
`none` while absent (as in a freshly loaded frame).
-/

/-- Module-level constants of `appy.py`. -/
def RECORDS_PER_ANALYSIS : Nat := 24

def AUTO_INTERVAL_SECONDS : Nat := 10

def HIGH_TRAFFIC_THRESHOLD : Nat := 50

/-- One row of the data frame: the five base columns and the two derived
columns (`Total`, `Hour`) that `analyze_data` adds in place. -/
structure TrafficRecord where
  date : Nat
  time : Nat
  cars : Nat
  bicycles : Nat
  pedestrians : Nat
  total? : Option Nat := none
  hour? : Option Nat := none
deriving DecidableEq, Repr

/-- `datetime.hour` of a timestamp in seconds. -/
def hourOfTime (t : Nat) : Nat := t / 3600 % 24

/-- `datetime.date` (as a day index) of a timestamp in seconds,
written by `strftime` into the Date column. -/
def dateOfTime (t : Nat) : Nat := t / 86400

/-- The persisted CSV file: `none` when absent from disk. -/
abbrev Store := Option (List TrafficRecord)

/-- `load_data` (appy.py lines 14-22): read the CSV; on
`FileNotFoundError` create an empty frame, persist it, and return it.
Returns the store state after the call together with the loaded frame. -/
def load_data : Store → Store × List TrafficRecord
  | some df => (some df, df)
  | none => (some [], [])

/-- `add_entry` (appy.py lines 25-35): load the frame, build a one-row
frame stamped with `datetime.now()`, concatenate it at the end and
rewrite the CSV.  `now` is the timestamp taken during the call. -/
def add_entry (cars bicycles pedestrians now : Nat) (s : Store) : Store :=
  let df := (load_data s).2
  let new_entry : TrafficRecord :=
    { date := dateOfTime now, time := now, cars := cars,
      bicycles := bicycles, pedestrians := pedestrians }
  some (df ++ [new_entry])

/-- The status banner emitted by `clear_data`. -/
inductive ClearMsg where
  | success
  | info
deriving DecidableEq, Repr

/-- `clear_data` (appy.py lines 38-43): delete the CSV if it exists
(success banner), otherwise report that there is no file (info banner). -/
def clear_data : Store → Store × ClearMsg
  | some _ => (none, ClearMsg.success)
  | none => (none, ClearMsg.info)

/-- The in-place column writes of `analyze_data` lines 47-48:
`df[Total] = Cars + Bicycles + Pedestrians` and `df[Hour] = Time.dt.hour`. -/
def setDerived (r : TrafficRecord) : TrafficRecord :=
  { r with total? := some (r.cars + r.bicycles + r.pedestrians),
           hour? := some (hourOfTime r.time) }

def addDerivedColumns (df : List TrafficRecord) : List TrafficRecord :=
  df.map setDerived

/-- Reading the Hour column of a row (0 is never used: the column is
always written before it is read). -/
def rowHour (r : TrafficRecord) : Nat := r.hour?.getD 0

/-- Reading the Total column of a row. -/
def rowTotal (r : TrafficRecord) : Nat := r.total?.getD 0

/-- `df.groupby(Hour)[Total].sum()`: a series indexed by the distinct
hours present in the frame in ascending order (pandas sorts group keys),
each mapped to the sum of Total over the rows of that hour. -/
def traffic_by_hour (df : List TrafficRecord) : List (Nat × Nat) :=
  ((List.range 24).filter (fun h => df.any (fun r => rowHour r == h))).map
    (fun h => (h, ((df.filter (fun r => rowHour r == h)).map rowTotal).sum))

/-- `Series.max()`: the greatest value of the series (0 on an empty
series never reaches `analyze_data`'s result because `idxmax` raises
first). -/
def seriesMax (s : List (Nat × Nat)) : Nat := (s.map Prod.snd).foldr max 0

/-- `Series.idxmax()`: the index label of the first occurrence of the
maximum value; `none` models the `ValueError` raised on an empty
series. -/
def idxmax (s : List (Nat × Nat)) : Option Nat :=
  (s.find? (fun p => p.2 == seriesMax s)).map Prod.fst

/-- The error raised when `analyze_data` is invoked on an empty frame
(`idxmax` of an empty series). -/
inductive AnalyzeError where
  | emptyInput
deriving DecidableEq, Repr

/-- `analyze_data` (appy.py lines 46-52): write the Total and Hour
columns in place, group by hour, and return (mutated frame, hourly
series, peak hour, peak total); an empty frame raises. -/
def analyze_data (df : List TrafficRecord) :
    Except AnalyzeError (List TrafficRecord × List (Nat × Nat) × Nat × Nat) :=
  let df2 := addDerivedColumns df
  let tbh := traffic_by_hour df2
  match idxmax tbh with
  | some peak_hour => Except.ok (df2, tbh, peak_hour, seriesMax tbh)
  | none => Except.error AnalyzeError.emptyInput

/-- The high-traffic alert decision of `main` (appy.py lines 71-73):
computed from the three pending widget values only; the store parameter
records that the persisted data plays no role in the decision. -/
def mainAlert (cars bicycles pedestrians : Nat) (_s : Store) : Bool :=
  let total_manual := cars + bicycles + pedestrians
  total_manual > HIGH_TRAFFIC_THRESHOLD

/-- The gate in `main` (appy.py lines 94-96 and 111) under which
`analyze_data` is invoked: the frame is non-empty (otherwise `main`
returns early) and its length is a positive multiple of
`RECORDS_PER_ANALYSIS`. -/
def mainRunsAnalysis (df : List TrafficRecord) : Bool :=
  if df.isEmpty then false
  else decide (RECORDS_PER_ANALYSIS ≤ df.length) &&
       (df.length % RECORDS_PER_ANALYSIS == 0)

/-- The auto-generation loop of `main` (appy.py lines 84-90), folded
over the wall-clock times of the successive reruns of one session:
starting from `last_auto_time = last`, return the times of the checks
whose elapsed difference exceeded `AUTO_INTERVAL_SECONDS` and hence
triggered `auto_generate_data` (each trigger resets `last_auto_time`
to the current time). -/
def sessionFires (last : Nat) : List Nat → List Nat
  | [] => []
  | now :: rest =>
    if AUTO_INTERVAL_SECONDS < now - last then
      now :: sessionFires now rest
    else
      sessionFires last rest

/-- A concrete pair of records used by the closed witnesses: hour 0 and
hour 1, each with total 10 (a peak-hour tie). -/
def recHour0 : TrafficRecord :=
  { date := 0, time := 0, cars := 10, bicycles := 0, pedestrians := 0 }

def recHour1 : TrafficRecord :=
  { date := 0, time := 3600, cars := 10, bicycles := 0, pedestrians := 0 }

def dfTie : List TrafficRecord := [recHour0, recHour1]

/-- A 24-record frame satisfying `main`'s analysis gate. -/
def df24 : List TrafficRecord := List.replicate 24 recHour0

/-- C1: append followed by load extends the loaded sequence by exactly
one last record carrying the given counts, whose timestamp is the one
taken during the `add_entry` call and hence lies in its execution
window. -/
theorem add_entry_load_appends (c b p tStart now tEnd : Nat) (s : Store)
    (h1 : tStart ≤ now) (h2 : now ≤ tEnd) :
    ∃ r : TrafficRecord,
      (load_data (add_entry c b p now s)).2 = (load_data s).2 ++ [r] ∧
      r.cars = c ∧ r.bicycles = b ∧ r.pedestrians = p ∧
      tStart ≤ r.time ∧ r.time ≤ tEnd := by
  refine ⟨{ date := dateOfTime now, time := now, cars := c,
            bicycles := b, pedestrians := p }, ?_, rfl, rfl, rfl, h1, h2⟩
  cases s <;> rfl

theorem add_entry_load_appends_witness :
    ∃ r : TrafficRecord,
      (load_data (add_entry 1 2 3 5 none)).2 = (load_data none).2 ++ [r] ∧
      r.cars = 1 ∧ r.bicycles = 2 ∧ r.pedestrians = 3 ∧
      4 ≤ r.time ∧ r.time ≤ 9 :=
  add_entry_load_appends 1 2 3 4 5 9 none (by decide) (by decide)

/-- C5: after `clear_data`, `load_data` yields the empty sequence,
whatever the prior state of the store. -/
theorem clear_then_load_empty (s : Store) :
    (load_data (clear_data s).1).2 = [] := by
  cases s <;> rfl

/-- C6: on a missing store, `load_data` does not fail: it returns the
empty sequence and persists the empty schema (`some []`). -/
theorem load_missing_store_initializes : load_data none = (some [], []) := rfl

/-- C7: clearing a missing store is a no-op that emits the
informational banner and leaves the store absent; clearing twice leaves
the same store state as clearing once. -/
theorem clear_idempotent_missing_noop :
    clear_data none = (none, ClearMsg.info) ∧
    ∀ s : Store, (clear_data (clear_data s).1).1 = (clear_data s).1 := by
  refine ⟨rfl, ?_⟩
  intro s
  cases s <;> rfl

/-- C8: the high-traffic alert fires exactly when the pending manual
counts sum to more than `HIGH_TRAFFIC_THRESHOLD`, and its outcome is
the same under every persisted store state. -/
theorem high_traffic_alert_iff (c b p : Nat) (s : Store) :
    (mainAlert c b p s = true ↔ HIGH_TRAFFIC_THRESHOLD < c + b + p) ∧
    ∀ s' : Store, mainAlert c b p s = mainAlert c b p s' := by
  constructor
  · simp [mainAlert]
  · intro s'
    rfl

/-- Every triggered auto-generation happens strictly more than
`AUTO_INTERVAL_SECONDS` after the `last_auto_time` in force when the
session segment began: `last_auto_time` only ever moves forward to the
time of a trigger. -/
theorem sessionFires_gt (ts : List Nat) (last : Nat) :
    ∀ u ∈ sessionFires last ts, last + AUTO_INTERVAL_SECONDS < u := by
  induction ts generalizing last with
  | nil =>
    intro u hu
    simp [sessionFires] at hu
  | cons t rest ih =>
    intro u hu
    simp only [sessionFires] at hu
    split at hu
    · rename_i hfire
      rcases List.mem_cons.mp hu with h | h
      · subst h; omega
      · have := ih t u h; omega
    · exact ih last u hu

/-- C4: within one session, any two checks that both trigger
auto-generation are separated by strictly more than
`AUTO_INTERVAL_SECONDS`; in particular two checks less than 10 time
units apart never both trigger. -/
theorem auto_generation_min_gap (last : Nat) (ts : List Nat) :
    (sessionFires last ts).Pairwise
      (fun a b => AUTO_INTERVAL_SECONDS < b - a) := by
  induction ts generalizing last with
  | nil => simp [sessionFires]
  | cons t rest ih =>
    simp only [sessionFires]
    split
    · refine List.Pairwise.cons ?_ (ih t)
      intro u hu
      have := sessionFires_gt rest t u hu
      omega
    · exact ih last

/-- On a list whose first components are strictly increasing, `find?`
for value `m` returns an element attaining `m` whose key is least among
all elements attaining `m`. -/
theorem find_first_max (m : Nat) (s : List (Nat × Nat)) (q : Nat × Nat)
    (hpw : s.Pairwise (fun a b => a.1 < b.1))
    (hq : s.find? (fun p => p.2 == m) = some q) :
    q.2 = m ∧ q ∈ s ∧ ∀ p ∈ s, p.2 = m → q.1 ≤ p.1 := by
  induction s with
  | nil => simp [List.find?] at hq
  | cons a rest ih =>
    cases hm : (a.2 == m) with
    | true =>
      simp only [List.find?, hm] at hq
      injection hq with hq
      subst hq
      refine ⟨by simpa using hm, List.mem_cons_self a rest, ?_⟩
      intro p hp _
      rcases List.mem_cons.mp hp with h | h
      · subst h; exact le_refl _
      · exact le_of_lt ((List.pairwise_cons.mp hpw).1 p h)
    | false =>
      simp only [List.find?, hm] at hq
      obtain ⟨hq2, hqmem, hleast⟩ := ih (List.pairwise_cons.mp hpw).2 hq
      refine ⟨hq2, List.mem_cons_of_mem a hqmem, ?_⟩
      intro p hp hpm
      rcases List.mem_cons.mp hp with h | h
      · subst h
        rw [hpm] at hm
        simp at hm
      · exact hleast p h hpm

/-- The index of the hourly series is strictly increasing: the group
keys come from `List.range 24` filtered to the hours present. -/
theorem traffic_by_hour_sorted (df : List TrafficRecord) :
    (traffic_by_hour df).Pairwise (fun a b => a.1 < b.1) := by
  unfold traffic_by_hour
  rw [List.pairwise_map]
  exact (List.pairwise_lt_range 24).filter _

/-- Characterization of a successful `analyze_data` run in terms of its
components. -/
theorem analyze_data_ok (df df2 : List TrafficRecord) (tbh : List (Nat × Nat))
    (ph pt : Nat) (h : analyze_data df = Except.ok (df2, tbh, ph, pt)) :
    df2 = addDerivedColumns df ∧
    tbh = traffic_by_hour (addDerivedColumns df) ∧
    idxmax tbh = some ph ∧ pt = seriesMax tbh := by
  simp only [analyze_data] at h
  cases hidx : idxmax (traffic_by_hour (addDerivedColumns df)) with
  | none =>
    rw [hidx] at h
    cases h
  | some p0 =>
    rw [hidx] at h
    simp only [Except.ok.injEq, Prod.mk.injEq] at h
    obtain ⟨h1, h2, h3, h4⟩ := h
    subst h1 h2 h3 h4
    exact ⟨rfl, rfl, hidx, rfl⟩

/-- C2: whenever `analyze_data` returns and two distinct hours both
attain the peak total, the returned peak hour attains the peak total
and is the lowest-valued hour index among all hours attaining it
(first occurrence in the ascending group-key order). -/
theorem peak_hour_lowest_among_ties
    (df df2 : List TrafficRecord) (tbh : List (Nat × Nat)) (ph pt : Nat)
    (h : analyze_data df = Except.ok (df2, tbh, ph, pt))
    (h1 h2 : Nat) (hne : h1 ≠ h2)
    (ht1 : (h1, pt) ∈ tbh) (ht2 : (h2, pt) ∈ tbh) :
    (ph, pt) ∈ tbh ∧ ∀ hr, (hr, pt) ∈ tbh → ph ≤ hr := by
  obtain ⟨hdf2, htbh, hidx, hpt⟩ := analyze_data_ok df df2 tbh ph pt h
  have hpw : tbh.Pairwise (fun a b => a.1 < b.1) := by
    rw [htbh]; exact traffic_by_hour_sorted _
  obtain ⟨q, hfq, hq1⟩ :
      ∃ q, tbh.find? (fun p => p.2 == seriesMax tbh) = some q ∧ q.1 = ph := by
    unfold idxmax at hidx
    cases hfq : tbh.find? (fun p => p.2 == seriesMax tbh) with
    | none => rw [hfq] at hidx; cases hidx
    | some q =>
      rw [hfq] at hidx
      exact ⟨q, rfl, by injection hidx⟩
  obtain ⟨hq2, hqmem, hleast⟩ := find_first_max (seriesMax tbh) tbh q hpw hfq
  have hqeq : q = (ph, pt) := by
    rw [← hq1, hpt, ← hq2]
  constructor
  · rw [← hqeq]; exact hqmem
  · intro hr hmem
    have := hleast (hr, pt) hmem hpt
    rw [hq1] at this
    exact this

theorem peak_hour_lowest_among_ties_witness :
    (0, 10) ∈ traffic_by_hour (addDerivedColumns dfTie) ∧
    ∀ hr, (hr, 10) ∈ traffic_by_hour (addDerivedColumns dfTie) → 0 ≤ hr :=
  peak_hour_lowest_among_ties dfTie (addDerivedColumns dfTie)
    (traffic_by_hour (addDerivedColumns dfTie)) 0 10 rfl 0 1
    (by decide) (by decide) (by decide)

/-- C3: invoked on an empty frame, `analyze_data` raises the
empty-input error instead of returning a degenerate peak, and `main`'s
gate around the analysis block only passes on frames holding at least
one record. -/
theorem analyze_empty_errors_and_caller_guards :
    analyze_data [] = Except.error AnalyzeError.emptyInput ∧
    ∀ df : List TrafficRecord, mainRunsAnalysis df = true → 1 ≤ df.length := by
  constructor
  · rfl
  · intro df h
    unfold mainRunsAnalysis at h
    split at h
    · cases h
    · rename_i hne
      simp only [Bool.and_eq_true, decide_eq_true_eq] at h
      have h24 : RECORDS_PER_ANALYSIS ≤ df.length := h.1
      unfold RECORDS_PER_ANALYSIS at h24
      omega

theorem analyze_empty_errors_and_caller_guards_witness : 1 ≤ df24.length :=
  analyze_empty_errors_and_caller_guards.2 df24 (by decide)

theorem setDerived_setDerived (r : TrafficRecord) :
    setDerived (setDerived r) = setDerived r := rfl

/-- Rewriting the Total and Hour columns of an already-analyzed frame
recomputes them from the unchanged base columns, so it changes
nothing. -/
theorem addDerivedColumns_idem (df : List TrafficRecord) :
    addDerivedColumns (addDerivedColumns df) = addDerivedColumns df := by
  unfold addDerivedColumns
  rw [List.map_map]
  rfl

/-- C9: `analyze_data` is idempotent on a snapshot: a second run on the
(in-place mutated) frame returned by a successful first run yields the
identical frame, hourly series, peak hour and peak total. -/
theorem analyze_idempotent (df df2 : List TrafficRecord)
    (tbh : List (Nat × Nat)) (ph pt : Nat)
    (h : analyze_data df = Except.ok (df2, tbh, ph, pt)) :
    analyze_data df2 = Except.ok (df2, tbh, ph, pt) := by
  obtain ⟨hdf2, htbh, hidx, hpt⟩ := analyze_data_ok df df2 tbh ph pt h
  subst hdf2 htbh hpt
  simp only [analyze_data, addDerivedColumns_idem]
  rw [hidx]

theorem analyze_idempotent_witness :
    analyze_data (addDerivedColumns dfTie) =
      Except.ok (addDerivedColumns dfTie,
        traffic_by_hour (addDerivedColumns dfTie), 0, 10) :=
  analyze_idempotent dfTie (addDerivedColumns dfTie)
    (traffic_by_hour (addDerivedColumns dfTie)) 0 10 rfl

/-- C10: a successful `analyze_data` run leaves the caller's frame
mapped row-by-row to the same row extended with the Total and Hour
columns computed from its base fields; in particular the five base
columns and the row order are unchanged. -/
theorem analyze_mutates_frame (df df2 : List TrafficRecord)
    (tbh : List (Nat × Nat)) (ph pt : Nat)
    (h : analyze_data df = Except.ok (df2, tbh, ph, pt)) :
    df2 = df.map (fun r =>
      { r with total? := some (r.cars + r.bicycles + r.pedestrians),
               hour? := some (hourOfTime r.time) }) ∧
    df2.map (fun r => (r.date, r.time, r.cars, r.bicycles, r.pedestrians)) =
      df.map (fun r => (r.date, r.time, r.cars, r.bicycles, r.pedestrians)) := by
  obtain ⟨hdf2, -, -, -⟩ := analyze_data_ok df df2 tbh ph pt h
  subst hdf2
  constructor
  · rfl
  · unfold addDerivedColumns
    rw [List.map_map]
    rfl

theorem analyze_mutates_frame_witness :
    addDerivedColumns dfTie = dfTie.map (fun r =>
      { r with total? := some (r.cars + r.bicycles + r.pedestrians),
               hour? := some (hourOfTime r.time) }) ∧
    (addDerivedColumns dfTie).map
        (fun r => (r.date, r.time, r.cars, r.bicycles, r.pedestrians)) =
      dfTie.map (fun r => (r.date, r.time, r.cars, r.bicycles, r.pedestrians)) :=
  analyze_mutates_frame dfTie (addDerivedColumns dfTie)
    (traffic_by_hour (addDerivedColumns dfTie)) 0 10 rfl
